import Mathlib

/-
Shallow embedding of src/api_generator.py: a FastAPI application with two
POST endpoints.  Each endpoint parses a JSON body into a pydantic model
(field constraints declared with Field), calls a helper that delegates the
actual image generation to an external library, and wraps the produced
bytes into a streaming response.  The external encoder libraries (qrcode,
python-barcode) are not part of the repository; helpers take them as
oracle parameters, and where a claim needs concrete encoder behaviour the
oracle is instantiated with a model built from the spec's ImageEncoder
contract (marked `Modelled from the spec:`).
-/

/-- Python JSON-style values, for the open `options` mapping of BarcodeRequest. -/
inductive JsonValue where
  | str (s : String)
  | num (n : Int)
  | bool (b : Bool)
  | null
deriving DecidableEq, Repr

/-- Embedding of fastapi.HTTPException as raised by the helper functions:
a status code and a detail message. -/
structure HTTPException where
  status_code : Nat
  detail : String
deriving DecidableEq, Repr

/-- Exceptions that can escape the try-block of `_generate_barcode_image_bytes`
(src lines 63-84): the HTTPException raised by the unsupported-type check
(line 71), the barcode library's BarcodeError, or any other exception,
carried as its message string. -/
inductive PyExc where
  | httpException (status_code : Nat) (detail : String)
  | barcodeError (msg : String)
  | otherExc (msg : String)
deriving DecidableEq, Repr

/-- Result of Python's str(e) on a caught exception: Starlette's
HTTPException prints as "status_code: detail"; for the library errors the
message string itself is used. -/
def pyExcStr : PyExc → String
  | .httpException c d => toString c ++ ": " ++ d
  | .barcodeError m => m
  | .otherExc m => m

/-- Validated QRCodeRequest pydantic model (src lines 18-25). -/
structure QRCodeRequest where
  data : String
  filename : String
  fill_color : String
  back_color : String
  version : Int
  box_size : Int
  border : Int
deriving DecidableEq, Repr

/-- Validated BarcodeRequest pydantic model (src lines 27-32). -/
structure BarcodeRequest where
  barcode_type : String
  data : String
  filename : String
  options : List (String × JsonValue)
deriving DecidableEq, Repr

/-- Parsed JSON body of a /generate-qr request before pydantic validation:
every field may be absent. -/
structure QRCodeRequestInput where
  data : Option String
  filename : Option String
  fill_color : Option String
  back_color : Option String
  version : Option Int
  box_size : Option Int
  border : Option Int
deriving DecidableEq, Repr

/-- Parsed JSON body of a /generate-barcode request before pydantic
validation. -/
structure BarcodeRequestInput where
  barcode_type : Option String
  data : Option String
  filename : Option String
  options : Option (List (String × JsonValue))
deriving DecidableEq, Repr

/-- Names of the QRCodeRequest fields whose declared pydantic constraint the
input violates, in declaration order: data is required (`Field(...)`),
version has ge=1 le=40, box_size has ge=1, border has ge=0 (src lines
19-25).  A plain `str` field has no further constraint. -/
def qrFieldErrors (i : QRCodeRequestInput) : List String :=
  (if i.data.isNone then ["data"] else []) ++
  (match i.version with
   | some v => if 1 ≤ v ∧ v ≤ 40 then [] else ["version"]
   | none => []) ++
  (match i.box_size with
   | some v => if 1 ≤ v then [] else ["box_size"]
   | none => []) ++
  (match i.border with
   | some v => if 0 ≤ v then [] else ["border"]
   | none => [])

/-- QRCodeRequest built from a validated input, applying the declared
defaults: filename "qrcode.png", fill_color "black", back_color "white",
version 1, box_size 10, border 4 (src lines 19-25). -/
def qrRequestOf (i : QRCodeRequestInput) (d : String) : QRCodeRequest :=
  { data := d
    filename := i.filename.getD "qrcode.png"
    fill_color := i.fill_color.getD "black"
    back_color := i.back_color.getD "white"
    version := i.version.getD 1
    box_size := i.box_size.getD 10
    border := i.border.getD 4 }

/-- Pydantic validation of a /generate-qr body: succeeds exactly when no
declared field constraint is violated, otherwise reports the offending
field names. -/
def validate_qr (i : QRCodeRequestInput) : Except (List String) QRCodeRequest :=
  match qrFieldErrors i, i.data with
  | [], some d => .ok (qrRequestOf i d)
  | errs, _ => .error errs

/-- Names of the BarcodeRequest fields the input is missing: barcode_type
and data are required, filename and options have defaults (src lines
28-32). -/
def barcodeFieldErrors (i : BarcodeRequestInput) : List String :=
  (if i.barcode_type.isNone then ["barcode_type"] else []) ++
  (if i.data.isNone then ["data"] else [])

/-- Pydantic validation of a /generate-barcode body, applying the defaults
filename "barcode.png" and options {} (src lines 30-32). -/
def validate_barcode (i : BarcodeRequestInput) : Except (List String) BarcodeRequest :=
  match i.barcode_type, i.data with
  | some t, some d =>
      .ok { barcode_type := t, data := d, filename := i.filename.getD "barcode.png",
            options := i.options.getD [] }
  | _, _ => .error (barcodeFieldErrors i)

/-- Outcome of the qrcode-library pipeline inside the try-block of
`_generate_qr_code_image_bytes` (src lines 40-54): either the produced PNG
bytes or an exception carried as its message string. -/
inductive QREncodeResult where
  | ok (bytes : List Nat)
  | exc (msg : String)
deriving DecidableEq, Repr

/-- Oracle type for the external qrcode library composite call
(QRCode construction, add_data, make, make_image, save): arguments are
data, fill_color, back_color, version, box_size, border. -/
def QREncoder : Type :=
  String → String → String → Int → Int → Int → QREncodeResult

/-- Outcome of the python-barcode library calls inside the try-block of
`_generate_barcode_image_bytes` (src lines 78-82): bytes, a
barcode.errors.BarcodeError, or any other exception. -/
inductive BarcodeEncodeResult where
  | ok (bytes : List Nat)
  | barcodeError (msg : String)
  | otherExc (msg : String)
deriving DecidableEq, Repr

/-- Oracle type for the external python-barcode composite call
(barcode.get, instance construction, write with options): arguments are
barcode_type, data, options. -/
def BarcodeEncoder : Type :=
  String → String → List (String × JsonValue) → BarcodeEncodeResult

/-- Helper `_generate_qr_code_image_bytes` (src lines 37-59): the try-block
delegates to the library; any exception is turned into an HTTPException
with status 500 and detail "Failed to generate QR Code: <cause>". -/
def _generate_qr_code_image_bytes (enc : QREncoder)
    (data fill_color back_color : String)
    (version box_size border : Int) : Except HTTPException (List Nat) :=
  match enc data fill_color back_color version box_size border with
  | .ok b => .ok b
  | .exc e => .error ⟨500, "Failed to generate QR Code: " ++ e⟩

/-- The fixed supported set of src lines 66-69. -/
def supported_barcode_types : List String :=
  ["ean8", "ean13", "upca", "jan", "isbn10", "isbn13", "issn",
   "code39", "code128", "pzn", "gs1"]

/-- Detail message of the HTTPException raised by the unsupported-type
check (src lines 71-74). -/
def unsupportedDetail (t : String) : String :=
  "Unsupported barcode type: '" ++ t ++ "'. Supported types: " ++
    String.intercalate ", " supported_barcode_types

/-- Try-block of `_generate_barcode_image_bytes` (src lines 63-84): the
membership check on the supported set raises an HTTPException with status
400 for an unknown type (exact string membership, `not in`); otherwise the
library is invoked.  Every raised exception, the HTTPException included,
propagates to the except clauses of the same try statement. -/
def barcodeTryBody (enc : BarcodeEncoder) (barcode_type data : String)
    (options : List (String × JsonValue)) : Except PyExc (List Nat) :=
  if barcode_type ∉ supported_barcode_types then
    .error (.httpException 400 (unsupportedDetail barcode_type))
  else
    match enc barcode_type data options with
    | .ok b => .ok b
    | .barcodeError m => .error (.barcodeError m)
    | .otherExc m => .error (.otherExc m)

/-- Helper `_generate_barcode_image_bytes` (src lines 61-94): runs the
try-block, then the except clauses in source order: a BarcodeError becomes
a 400 HTTPException naming the type and the cause; ANY other exception —
including the 400 HTTPException raised by the unsupported-type check,
which is an Exception subclass and not a BarcodeError — is caught by the
blanket `except Exception` and becomes a 500 HTTPException whose detail
embeds str(e). -/
def _generate_barcode_image_bytes (enc : BarcodeEncoder)
    (barcode_type data : String)
    (options : List (String × JsonValue)) : Except HTTPException (List Nat) :=
  match barcodeTryBody enc barcode_type data options with
  | .ok b => .ok b
  | .error (.barcodeError m) =>
      .error ⟨400, "Invalid data for barcode type '" ++ barcode_type ++ "': " ++ m ++
        ". Please check data format and length."⟩
  | .error e =>
      .error ⟨500, "Failed to generate barcode: " ++ pyExcStr e⟩

/-- HTTP response as produced by the FastAPI layer: status, media type and
streamed body for successes, JSON error detail for HTTPExceptions, the
offending field names for request-validation failures, and the
Content-Disposition header. -/
structure ApiResponse where
  status : Nat
  media_type : Option String
  body : Option (List Nat)
  detail : Option String
  error_fields : List String
  content_disposition : Option String
deriving DecidableEq, Repr

/-- Endpoint POST /generate-qr (src lines 98-112).  FastAPI first runs
pydantic validation of the body; a constraint violation produces the
framework's 422 validation response naming the offending fields and the
handler never runs.  Otherwise the helper is called; an HTTPException
becomes a JSON error response carrying its status and detail, and success
streams the byte buffer with media type image/png and header
Content-Disposition: inline; filename="<request.filename>" (src line
112). -/
def generate_qr_code_api (enc : QREncoder) (i : QRCodeRequestInput) : ApiResponse :=
  match validate_qr i with
  | .error errs =>
      { status := 422, media_type := none, body := none, detail := none,
        error_fields := errs, content_disposition := none }
  | .ok req =>
      match _generate_qr_code_image_bytes enc req.data req.fill_color req.back_color
          req.version req.box_size req.border with
      | .error e =>
          { status := e.status_code, media_type := none, body := none,
            detail := some e.detail, error_fields := [], content_disposition := none }
      | .ok bytes =>
          { status := 200, media_type := some "image/png", body := some bytes,
            detail := none, error_fields := [],
            content_disposition := some ("inline; filename=\"" ++ req.filename ++ "\"") }

/-- Endpoint POST /generate-barcode (src lines 114-126), with the same
FastAPI dispatch; the Content-Disposition header of src line 126 uses the
request's filename unchanged. -/
def generate_barcode_api (enc : BarcodeEncoder) (i : BarcodeRequestInput) : ApiResponse :=
  match validate_barcode i with
  | .error errs =>
      { status := 422, media_type := none, body := none, detail := none,
        error_fields := errs, content_disposition := none }
  | .ok req =>
      match _generate_barcode_image_bytes enc req.barcode_type req.data req.options with
      | .error e =>
          { status := e.status_code, media_type := none, body := none,
            detail := some e.detail, error_fields := [], content_disposition := none }
      | .ok bytes =>
          { status := 200, media_type := some "image/png", body := some bytes,
            detail := none, error_fields := [],
            content_disposition := some ("inline; filename=\"" ++ req.filename ++ "\"") }

/-- Modelled from the spec: byte-mode data capacities of QR versions 1..40
at the high error-correction level the handler requests
(ERROR_CORRECT_H).  The qrcode library performing the "library-internal
capacity check" is not part of the repository; the spec names the check
without giving numbers, so the standard ISO/IEC 18004 capacities at level
H are used.  Entry k is the capacity in characters of version k+1. -/
def qr_capacity_bytes : List Nat :=
  [7, 14, 24, 34, 44, 58, 64, 84, 98, 119, 137, 155, 177, 194, 220, 250,
   280, 310, 338, 382, 403, 439, 461, 511, 535, 593, 625, 658, 698, 742,
   790, 842, 898, 958, 983, 1051, 1093, 1139, 1219, 1273]

/-- Modelled from the spec: the symbol capacity for the chosen version. -/
def qrCapacity (version : Int) : Nat :=
  qr_capacity_bytes.getD (version.toNat - 1) 0

/-- Modelled from the spec: the external QR ImageEncoder (encode_qr
contract of spec section 4.2), absent from the repository.  It fails with
an EncodingError when the symbol capacity for the chosen version cannot
hold the data, and otherwise produces image bytes; the raster content
itself is out of the spec's scope, so the modelled bytes simply carry the
encoded payload. -/
def encode_qr_spec (data _fill_color _back_color : String)
    (version _box_size _border : Int) : QREncodeResult :=
  if qrCapacity version < data.length then
    .exc "EncodingError: data exceeds the capacity of the chosen version"
  else
    .ok (data.toList.map Char.toNat)

/-- Fixed QR encoder oracle that always succeeds, for concrete instances. -/
def dummyQREncoder : QREncoder := fun _ _ _ _ _ _ => .ok [0]

/-- Fixed barcode encoder oracle that always succeeds, for concrete
instances. -/
def dummyBarcodeEncoder : BarcodeEncoder := fun _ _ _ => .ok [0]

/-- Every successful QR validation reads the filename from the input with
the declared default. -/
theorem validate_qr_ok (i : QRCodeRequestInput) (req : QRCodeRequest)
    (h : validate_qr i = .ok req) :
    i.data = some req.data ∧ req = qrRequestOf i req.data := by
  unfold validate_qr at h
  cases he : qrFieldErrors i with
  | nil =>
    cases hd : i.data with
    | none =>
      rw [he, hd] at h
      simp at h
    | some d =>
      rw [he, hd] at h
      simp only [Except.ok.injEq] at h
      subst h
      exact ⟨rfl, rfl⟩
  | cons a l =>
    rw [he] at h
    cases hd : i.data <;> rw [hd] at h <;> simp at h

/-- Every successful barcode validation carries the submitted type and
data, the filename with its default, and the options with their default. -/
theorem validate_barcode_ok (i : BarcodeRequestInput) (req : BarcodeRequest)
    (h : validate_barcode i = .ok req) :
    i.barcode_type = some req.barcode_type ∧ i.data = some req.data ∧
    req.filename = i.filename.getD "barcode.png" ∧
    req.options = i.options.getD [] := by
  unfold validate_barcode at h
  cases ht : i.barcode_type with
  | none => rw [ht] at h; simp at h
  | some t =>
    cases hd : i.data with
    | none => rw [ht, hd] at h; simp at h
    | some d =>
      rw [ht, hd] at h
      simp only [Except.ok.injEq] at h
      subst h
      exact ⟨rfl, rfl, rfl, rfl⟩

/-- Concrete /generate-barcode body with an unsupported barcode_type. -/
def unsupportedInput : BarcodeRequestInput :=
  { barcode_type := some "qrcode", data := some "123", filename := none, options := none }

/-- C1: the claim says an unsupported barcode_type yields HTTP 400 naming
the value and listing the supported set.  On the code, the 400
HTTPException raised by the membership check (src line 71) is caught by
the blanket `except Exception` of the same try statement (src line 90) and
re-raised as a 500 whose detail wraps the stringified 400 exception, so
the response at the failing input has status 500. -/
theorem c1_unsupported_type_yields_500 :
    (generate_barcode_api dummyBarcodeEncoder unsupportedInput).status = 500 ∧
    (generate_barcode_api dummyBarcodeEncoder unsupportedInput).detail =
      some "Failed to generate barcode: 400: Unsupported barcode type: 'qrcode'. Supported types: ean8, ean13, upca, jan, isbn10, isbn13, issn, code39, code128, pzn, gs1" :=
  ⟨rfl, rfl⟩

/-- C4: for a supported barcode_type whose data makes the encoder raise its
BarcodeError, the response has status 400 and the detail names both the
barcode type and the underlying cause (src lines 85-89). -/
theorem c4_invalid_data_400 (enc : BarcodeEncoder) (i : BarcodeRequestInput)
    (req : BarcodeRequest) (msg : String)
    (hv : validate_barcode i = .ok req)
    (hsup : req.barcode_type ∈ supported_barcode_types)
    (henc : enc req.barcode_type req.data req.options = .barcodeError msg) :
    (generate_barcode_api enc i).status = 400 ∧
    (generate_barcode_api enc i).detail =
      some ("Invalid data for barcode type '" ++ req.barcode_type ++ "': " ++ msg ++
        ". Please check data format and length.") := by
  simp [generate_barcode_api, hv, _generate_barcode_image_bytes, barcodeTryBody, hsup, henc]

/-- Barcode encoder oracle that rejects its data, as python-barcode does for
an EAN-13 string of the wrong length. -/
def ean13BadDataEncoder : BarcodeEncoder := fun _ _ _ => .barcodeError "Invalid length"

/-- Concrete /generate-barcode body with EAN-13 data of invalid length. -/
def ean13BadInput : BarcodeRequestInput :=
  { barcode_type := some "ean13", data := some "12345", filename := none, options := none }

/-- C4 witness at barcode_type ean13 with 5-digit data. -/
theorem c4_invalid_data_400_witness :
    ("ean13" ∈ supported_barcode_types ∧
     ean13BadDataEncoder "ean13" "12345" [] = .barcodeError "Invalid length") ∧
    ((generate_barcode_api ean13BadDataEncoder ean13BadInput).status = 400 ∧
     (generate_barcode_api ean13BadDataEncoder ean13BadInput).detail =
       some ("Invalid data for barcode type '" ++ "ean13" ++ "': " ++ "Invalid length" ++
         ". Please check data format and length.")) :=
  ⟨⟨by decide, rfl⟩,
   c4_invalid_data_400 ean13BadDataEncoder ean13BadInput
     { barcode_type := "ean13", data := "12345", filename := "barcode.png", options := [] }
     "Invalid length" rfl (by decide) rfl⟩

/-- C9: the supported-type membership test is exact string membership: any
barcode_type not literally in the list — "EAN13" or "ean13 " included —
makes the try-block raise the unsupported-type HTTPException, the result
is the same for every encoder (no encoding is attempted), and the final
outcome wraps that exception per the blanket except clause. -/
theorem c9_membership_exact (enc : BarcodeEncoder) (t data : String)
    (options : List (String × JsonValue)) (h : t ∉ supported_barcode_types) :
    _generate_barcode_image_bytes enc t data options =
      .error ⟨500, "Failed to generate barcode: " ++
        pyExcStr (PyExc.httpException 400 (unsupportedDetail t))⟩ := by
  simp [_generate_barcode_image_bytes, barcodeTryBody, h]

/-- C9 witness at the case-variant "EAN13". -/
theorem c9_membership_exact_witness :
    "EAN13" ∉ supported_barcode_types ∧
    _generate_barcode_image_bytes dummyBarcodeEncoder "EAN13" "123456789012" [] =
      .error ⟨500, "Failed to generate barcode: " ++
        pyExcStr (PyExc.httpException 400 (unsupportedDetail "EAN13"))⟩ :=
  ⟨by decide, c9_membership_exact dummyBarcodeEncoder "EAN13" "123456789012" [] (by decide)⟩

/-- C10: omitted optional fields default to filename "barcode.png" and the
empty options mapping, and the options of a validated request — defaulted
or supplied — reach the encoder's write call unchanged: the helper
succeeds with exactly the value the encoder returns on the request's own
options. -/
theorem c10_defaults_and_options_passthrough (t d : String) (enc : BarcodeEncoder)
    (i : BarcodeRequestInput) (req : BarcodeRequest) (bytes : List Nat)
    (hv : validate_barcode i = .ok req)
    (hsup : req.barcode_type ∈ supported_barcode_types)
    (henc : enc req.barcode_type req.data req.options = .ok bytes) :
    validate_barcode { barcode_type := some t, data := some d, filename := none, options := none } =
      .ok { barcode_type := t, data := d, filename := "barcode.png", options := [] } ∧
    req.options = i.options.getD [] ∧
    _generate_barcode_image_bytes enc req.barcode_type req.data req.options = .ok bytes := by
  refine ⟨rfl, (validate_barcode_ok i req hv).2.2.2, ?_⟩
  simp [_generate_barcode_image_bytes, barcodeTryBody, hsup, henc]

/-- Barcode encoder oracle whose output depends on the options it is
handed, to exhibit the pass-through. -/
def optionsEncoder : BarcodeEncoder := fun _ _ o => .ok [o.length]

/-- Concrete /generate-barcode body supplying an options mapping. -/
def optionsInput : BarcodeRequestInput :=
  { barcode_type := some "ean13", data := some "123456789012", filename := none,
    options := some [("text", JsonValue.str "hi")] }

/-- C10 witness: defaults for omitted fields and pass-through of a supplied
mapping. -/
theorem c10_defaults_and_options_passthrough_witness :
    ("ean13" ∈ supported_barcode_types ∧
     optionsEncoder "ean13" "123456789012" [("text", JsonValue.str "hi")] = .ok [1]) ∧
    (validate_barcode { barcode_type := some "x", data := some "y", filename := none, options := none } =
       .ok { barcode_type := "x", data := "y", filename := "barcode.png", options := [] } ∧
     ([("text", JsonValue.str "hi")] : List (String × JsonValue)) = optionsInput.options.getD [] ∧
     _generate_barcode_image_bytes optionsEncoder "ean13" "123456789012"
       [("text", JsonValue.str "hi")] = .ok [1]) :=
  ⟨⟨by decide, rfl⟩,
   c10_defaults_and_options_passthrough "x" "y" optionsEncoder optionsInput
     { barcode_type := "ean13", data := "123456789012", filename := "barcode.png",
       options := [("text", JsonValue.str "hi")] }
     [1] rfl (by decide) rfl⟩

/-- Validation failure is total: whenever some declared field constraint is
violated, validate_qr reports exactly the offending field names. -/
theorem validate_qr_error (i : QRCodeRequestInput) (h : qrFieldErrors i ≠ []) :
    validate_qr i = .error (qrFieldErrors i) := by
  unfold validate_qr
  cases he : qrFieldErrors i with
  | nil => exact absurd he h
  | cons a l => cases hd : i.data <;> rfl

/-- Concrete /generate-qr body with version 0, outside the declared
range. -/
def badVersionInput : QRCodeRequestInput :=
  { data := some "hello", filename := none, fill_color := none, back_color := none,
    version := some 0, box_size := none, border := none }

/-- C3 counterexample: a request with version = 0 (outside [1,40]) is
rejected before encoding, but with the framework's 422 validation status,
not 400 as the claim states. -/
theorem c3_version_zero_not_400 :
    (generate_qr_code_api dummyQREncoder badVersionInput).status = 422 ∧
    (generate_qr_code_api dummyQREncoder badVersionInput).status ≠ 400 ∧
    (generate_qr_code_api dummyQREncoder badVersionInput).error_fields = ["version"] := by
  refine ⟨rfl, ?_, rfl⟩
  decide

/-- C3 amended: every QR request violating a declared constraint (version
outside [1,40], box_size below 1, border below 0, or data missing) is
rejected with the framework's HTTP 422 validation error naming the
offending fields, before any encoding attempt: the response does not
depend on the encoder. -/
theorem c3_constraint_violation_rejected (enc enc2 : QREncoder) (i : QRCodeRequestInput)
    (h : qrFieldErrors i ≠ []) :
    generate_qr_code_api enc i = generate_qr_code_api enc2 i ∧
    (generate_qr_code_api enc i).status = 422 ∧
    (generate_qr_code_api enc i).error_fields = qrFieldErrors i := by
  have hv := validate_qr_error i h
  refine ⟨?_, ?_, ?_⟩ <;> simp [generate_qr_code_api, hv]

/-- C3 witness at version 0. -/
theorem c3_constraint_violation_rejected_witness :
    qrFieldErrors badVersionInput ≠ [] ∧
    (generate_qr_code_api dummyQREncoder badVersionInput =
       generate_qr_code_api encode_qr_spec badVersionInput ∧
     (generate_qr_code_api dummyQREncoder badVersionInput).status = 422 ∧
     (generate_qr_code_api dummyQREncoder badVersionInput).error_fields =
       qrFieldErrors badVersionInput) :=
  ⟨by decide, c3_constraint_violation_rejected dummyQREncoder encode_qr_spec
    badVersionInput (by decide)⟩

/-- C5: whenever the QR encoder faults, the response has status 500 and
detail "Failed to generate QR Code: <cause>" (src lines 55-59). -/
theorem c5_qr_fault_500 (enc : QREncoder) (i : QRCodeRequestInput)
    (req : QRCodeRequest) (msg : String)
    (hv : validate_qr i = .ok req)
    (henc : enc req.data req.fill_color req.back_color req.version req.box_size req.border =
      .exc msg) :
    (generate_qr_code_api enc i).status = 500 ∧
    (generate_qr_code_api enc i).detail = some ("Failed to generate QR Code: " ++ msg) := by
  simp [generate_qr_code_api, hv, _generate_qr_code_image_bytes, henc]

/-- QR encoder oracle that always faults. -/
def faultyQREncoder : QREncoder := fun _ _ _ _ _ _ => .exc "boom"

/-- Concrete well-formed /generate-qr body. -/
def qrHelloInput : QRCodeRequestInput :=
  { data := some "hello", filename := none, fill_color := none, back_color := none,
    version := none, box_size := none, border := none }

/-- C5 witness with a concrete faulting encoder. -/
theorem c5_qr_fault_500_witness :
    validate_qr qrHelloInput = .ok (qrRequestOf qrHelloInput "hello") ∧
    ((generate_qr_code_api faultyQREncoder qrHelloInput).status = 500 ∧
     (generate_qr_code_api faultyQREncoder qrHelloInput).detail =
       some "Failed to generate QR Code: boom") :=
  ⟨rfl, c5_qr_fault_500 faultyQREncoder qrHelloInput (qrRequestOf qrHelloInput "hello")
    "boom" rfl rfl⟩

/-- Concrete /generate-qr body whose data is the empty string. -/
def emptyDataInput : QRCodeRequestInput :=
  { data := some "", filename := none, fill_color := none, back_color := none,
    version := none, box_size := none, border := none }

/-- C6 counterexample: a request whose data is the empty string passes
validation — pydantic's plain str field has no minimum length — so no
client error is produced before encoding, and with the spec-modelled
encoder the request succeeds with status 200 rather than being
rejected. -/
theorem c6_empty_data_accepted :
    validate_qr emptyDataInput = .ok (qrRequestOf emptyDataInput "") ∧
    (generate_qr_code_api encode_qr_spec emptyDataInput).status = 200 :=
  ⟨rfl, rfl⟩

/-- C6 amended: data must be present, but any string — the empty string
included — is accepted: a request with data s and all other fields
omitted validates to a request carrying s unchanged, with the declared
defaults, and is never rejected for emptiness. -/
theorem c6_any_data_validates (s : String) :
    validate_qr { data := some s, filename := none, fill_color := none, back_color := none,
                  version := none, box_size := none, border := none } =
      .ok { data := s, filename := "qrcode.png", fill_color := "black", back_color := "white",
            version := 1, box_size := 10, border := 4 } := rfl

/-- C2: when the request's data exceeds the (spec-modelled) symbol capacity
of the version given in the request, the spec-modelled encoder fails with
its EncodingError from the capacity check, and the response has HTTP
status 500 (src lines 55-59). -/
theorem c2_capacity_overflow_500 (i : QRCodeRequestInput) (req : QRCodeRequest)
    (hv : validate_qr i = .ok req)
    (hover : qrCapacity req.version < req.data.length) :
    (generate_qr_code_api encode_qr_spec i).status = 500 ∧
    (generate_qr_code_api encode_qr_spec i).detail =
      some ("Failed to generate QR Code: " ++
        "EncodingError: data exceeds the capacity of the chosen version") := by
  have h1 : encode_qr_spec req.data req.fill_color req.back_color req.version
      req.box_size req.border =
      .exc "EncodingError: data exceeds the capacity of the chosen version" := by
    simp [encode_qr_spec, hover]
  simp [generate_qr_code_api, hv, _generate_qr_code_image_bytes, h1]

/-- Concrete 5000-character payload, far beyond every QR version. -/
def overflowData : String := String.mk (List.replicate 5000 'a')

/-- Concrete /generate-qr body with version 1 and the 5000-character
payload. -/
def overflowInput : QRCodeRequestInput :=
  { data := some overflowData, filename := none, fill_color := none, back_color := none,
    version := some 1, box_size := none, border := none }

/-- C2 witness: version 1 with a 5000-character string. -/
theorem c2_capacity_overflow_500_witness :
    validate_qr overflowInput = .ok (qrRequestOf overflowInput overflowData) ∧
    qrCapacity (qrRequestOf overflowInput overflowData).version <
      (qrRequestOf overflowInput overflowData).data.length ∧
    ((generate_qr_code_api encode_qr_spec overflowInput).status = 500 ∧
     (generate_qr_code_api encode_qr_spec overflowInput).detail =
       some ("Failed to generate QR Code: " ++
         "EncodingError: data exceeds the capacity of the chosen version")) := by
  have hcap : qrCapacity (qrRequestOf overflowInput overflowData).version <
      (qrRequestOf overflowInput overflowData).data.length := by
    show qrCapacity 1 < overflowData.length
    have hlen : overflowData.length = 5000 := by
      show (String.mk (List.replicate 5000 'a')).length = 5000
      rw [String.length_mk, List.length_replicate]
    rw [hlen]
    decide
  exact ⟨rfl, hcap,
    c2_capacity_overflow_500 overflowInput (qrRequestOf overflowInput overflowData) rfl hcap⟩

/-- C7: every successful request to either endpoint carries a
Content-Disposition header of inline; filename="<f>" where <f> is exactly
the client-submitted filename — unmodified — or the declared default when
omitted (src lines 112 and 126). -/
theorem c7_content_disposition_passthrough (encq : QREncoder) (encb : BarcodeEncoder)
    (iq : QRCodeRequestInput) (ib : BarcodeRequestInput)
    (hq : (generate_qr_code_api encq iq).status = 200)
    (hb : (generate_barcode_api encb ib).status = 200) :
    (generate_qr_code_api encq iq).content_disposition =
      some ("inline; filename=\"" ++ iq.filename.getD "qrcode.png" ++ "\"") ∧
    (generate_barcode_api encb ib).content_disposition =
      some ("inline; filename=\"" ++ ib.filename.getD "barcode.png" ++ "\"") := by
  constructor
  · cases hv : validate_qr iq with
    | error errs => simp [generate_qr_code_api, hv] at hq
    | ok req =>
      have hf : req.filename = iq.filename.getD "qrcode.png" := by
        rw [(validate_qr_ok iq req hv).2]; rfl
      cases henc : encq req.data req.fill_color req.back_color req.version
          req.box_size req.border with
      | exc m => simp [generate_qr_code_api, hv, _generate_qr_code_image_bytes, henc] at hq
      | ok bytes => simp [generate_qr_code_api, hv, _generate_qr_code_image_bytes, henc, hf]
  · cases hv : validate_barcode ib with
    | error errs => simp [generate_barcode_api, hv] at hb
    | ok req =>
      have hf : req.filename = ib.filename.getD "barcode.png" :=
        (validate_barcode_ok ib req hv).2.2.1
      cases htb : barcodeTryBody encb req.barcode_type req.data req.options with
      | ok bytes => simp [generate_barcode_api, hv, _generate_barcode_image_bytes, htb, hf]
      | error e =>
        cases e <;> simp [generate_barcode_api, hv, _generate_barcode_image_bytes, htb] at hb

/-- Concrete /generate-qr body whose filename holds a quote, a semicolon
and spaces. -/
def qrFancyNameInput : QRCodeRequestInput :=
  { data := some "hello", filename := some "a b;\"c.png", fill_color := none,
    back_color := none, version := none, box_size := none, border := none }

/-- Concrete /generate-barcode body whose filename holds special
characters. -/
def barcodeFancyInput : BarcodeRequestInput :=
  { barcode_type := some "code128", data := some "ABC", filename := some "x;\"y.png",
    options := none }

/-- C7 witness: successful requests with special-character filenames. -/
theorem c7_content_disposition_passthrough_witness :
    ((generate_qr_code_api dummyQREncoder qrFancyNameInput).status = 200 ∧
     (generate_barcode_api dummyBarcodeEncoder barcodeFancyInput).status = 200) ∧
    ((generate_qr_code_api dummyQREncoder qrFancyNameInput).content_disposition =
       some ("inline; filename=\"" ++ qrFancyNameInput.filename.getD "qrcode.png" ++ "\"") ∧
     (generate_barcode_api dummyBarcodeEncoder barcodeFancyInput).content_disposition =
       some ("inline; filename=\"" ++ barcodeFancyInput.filename.getD "barcode.png" ++ "\"")) :=
  ⟨⟨rfl, rfl⟩,
   c7_content_disposition_passthrough dummyQREncoder dummyBarcodeEncoder
     qrFancyNameInput barcodeFancyInput rfl rfl⟩

/-- C8: every request to either endpoint is all-or-nothing: either the
whole pipeline succeeds and the body is exactly the complete byte buffer
the helper produced, with no error detail, or it fails and the response
carries no body at all. -/
theorem c8_all_or_nothing (encq : QREncoder) (encb : BarcodeEncoder)
    (iq : QRCodeRequestInput) (ib : BarcodeRequestInput) :
    ((∃ req bytes, validate_qr iq = .ok req ∧
        _generate_qr_code_image_bytes encq req.data req.fill_color req.back_color
          req.version req.box_size req.border = .ok bytes ∧
        (generate_qr_code_api encq iq).status = 200 ∧
        (generate_qr_code_api encq iq).body = some bytes ∧
        (generate_qr_code_api encq iq).detail = none) ∨
      ((generate_qr_code_api encq iq).body = none ∧
       (generate_qr_code_api encq iq).status ≠ 200)) ∧
    ((∃ req bytes, validate_barcode ib = .ok req ∧
        _generate_barcode_image_bytes encb req.barcode_type req.data req.options = .ok bytes ∧
        (generate_barcode_api encb ib).status = 200 ∧
        (generate_barcode_api encb ib).body = some bytes ∧
        (generate_barcode_api encb ib).detail = none) ∨
      ((generate_barcode_api encb ib).body = none ∧
       (generate_barcode_api encb ib).status ≠ 200)) := by
  constructor
  · cases hv : validate_qr iq with
    | error errs => right; simp [generate_qr_code_api, hv]
    | ok req =>
      cases henc : encq req.data req.fill_color req.back_color req.version
          req.box_size req.border with
      | ok bytes =>
        left
        exact ⟨req, bytes, rfl, by simp [_generate_qr_code_image_bytes, henc],
          by simp [generate_qr_code_api, hv, _generate_qr_code_image_bytes, henc],
          by simp [generate_qr_code_api, hv, _generate_qr_code_image_bytes, henc],
          by simp [generate_qr_code_api, hv, _generate_qr_code_image_bytes, henc]⟩
      | exc m => right; simp [generate_qr_code_api, hv, _generate_qr_code_image_bytes, henc]
  · cases hv : validate_barcode ib with
    | error errs => right; simp [generate_barcode_api, hv]
    | ok req =>
      cases htb : barcodeTryBody encb req.barcode_type req.data req.options with
      | ok bytes =>
        left
        exact ⟨req, bytes, rfl, by simp [_generate_barcode_image_bytes, htb],
          by simp [generate_barcode_api, hv, _generate_barcode_image_bytes, htb],
          by simp [generate_barcode_api, hv, _generate_barcode_image_bytes, htb],
          by simp [generate_barcode_api, hv, _generate_barcode_image_bytes, htb]⟩
      | error e =>
        right
        cases e <;> simp [generate_barcode_api, hv, _generate_barcode_image_bytes, htb]
